import Mathlib

/-!
# Huawei port resource: normalisation and marker pagination

A shallow embedding of `pkg/multicloud/huawei/port.go`.

* Go strings are embedded as `String`; `len(s)` is the UTF-8 byte length and
  `strings.HasPrefix` compares the leading characters.
* A Go result pair `([]T, error)` is embedded as `Option (List T) × Option Error`,
  where `none` in the first component is the `nil` slice and `none` in the second
  is the `nil` error.
* The collaborator (`SRegion.list`, `SRegion.put`, `Response.Unmarshal`) lives outside
  this file of the repository and is a parameter of the embedding: a record of
  functions over an explicit provider state.
-/

namespace Huawei

/-! ## Data model -/

/-- Go type `SFixedIP`. -/
structure SFixedIP where
  IpAddress : String
  SubnetID : String
  NetworkId : String
  deriving DecidableEq, Repr

/-- Go type `Port`, with its JSON-decoded fields. The embedded bases
`SNetworkInterfaceBase`, `HuaweiTags` and the `region` back-reference are read by
none of the functions embedded here and are left out. -/
structure Port where
  ID : String
  Name : String
  Status : String
  AdminStateUp : String
  DNSName : String
  MACAddress : String
  NetworkID : String
  TenantID : String
  DeviceID : String
  DeviceOwner : String
  BindingVnicType : String
  FixedIps : List SFixedIP
  deriving DecidableEq, Repr

/-- Go type `AllowedAddressPair`. -/
structure AllowedAddressPair where
  IpAddress : String
  MacAddress : String
  deriving DecidableEq, Repr

/-- Go type `ExtraDhcpOpt`. -/
structure ExtraDhcpOpt where
  OptName : String
  OptValue : String
  deriving DecidableEq, Repr

/-- Go type `UpdatePortOpts`; a `nil` slice is `none`. -/
structure UpdatePortOpts where
  Name : String
  SecurityGroups : Option (List String)
  AllowedAddressPairs : Option (List AllowedAddressPair)
  ExtraDhcpOpts : Option (List ExtraDhcpOpt)
  deriving DecidableEq, Repr

/-- The constants of package `api` (`pkg/apis/compute`) that `port.go` returns.
Their values are declared outside `port.go`; the embedding takes them as a
parameter. -/
structure ApiConstants where
  NETWORK_INTERFACE_ASSOCIATE_TYPE_SERVER : String
  NETWORK_INTERFACE_ASSOCIATE_TYPE_RESERVED : String
  NETWORK_INTERFACE_ASSOCIATE_TYPE_DHCP : String
  NETWORK_INTERFACE_ASSOCIATE_TYPE_LOADBALANCER : String
  NETWORK_INTERFACE_ASSOCIATE_TYPE_VIP : String
  NETWORK_INTERFACE_STATUS_AVAILABLE : String
  NETWORK_INTERFACE_STATUS_CREATING : String
  deriving DecidableEq, Repr

/-! ## Go built-ins used by the source -/

/-- Go `len(s)` on a string: the number of bytes. -/
def len (s : String) : Nat := s.utf8ByteSize

/-- Go `strings.HasPrefix(s, pre)`. -/
def HasPrefix (s pre : String) : Bool := pre.data.isPrefixOf s.data

/-! ## Accessors of `SFixedIP` and `Port` -/

/-- Go `(*SFixedIP).GetGlobalId`. -/
def SFixedIP.GetGlobalId (fixip : SFixedIP) : String := fixip.IpAddress

/-- Go `(*SFixedIP).GetIP`. -/
def SFixedIP.GetIP (fixip : SFixedIP) : String := fixip.IpAddress

/-- Go `(*SFixedIP).GetINetworkId`. -/
def SFixedIP.GetINetworkId (fixip : SFixedIP) : String := fixip.NetworkId

/-- Go `(*SFixedIP).IsPrimary`. -/
def SFixedIP.IsPrimary (_fixip : SFixedIP) : Bool := true

/-- Go `(*Port).GetName`. -/
def Port.GetName (port : Port) : String :=
  if len port.Name > 0 then port.Name else port.ID

/-- Go `(*Port).GetId`. -/
def Port.GetId (port : Port) : String := port.ID

/-- Go `(*Port).GetGlobalId`. -/
def Port.GetGlobalId (port : Port) : String := port.ID

/-- Go `(*Port).GetMacAddress`. -/
def Port.GetMacAddress (port : Port) : String := port.MACAddress

/-- Go `(*Port).GetAssociateType`: the `switch` on `DeviceOwner`, its `default`
branch with the prefix test, and the final `return port.DeviceOwner`. -/
def Port.GetAssociateType (api : ApiConstants) (port : Port) : String :=
  if port.DeviceOwner = "compute:nova" then
    api.NETWORK_INTERFACE_ASSOCIATE_TYPE_SERVER
  else if port.DeviceOwner = "network:router_gateway"
      ∨ port.DeviceOwner = "network:router_interface"
      ∨ port.DeviceOwner = "network:router_interface_distributed" then
    api.NETWORK_INTERFACE_ASSOCIATE_TYPE_RESERVED
  else if port.DeviceOwner = "network:dhcp" then
    api.NETWORK_INTERFACE_ASSOCIATE_TYPE_DHCP
  else if port.DeviceOwner = "neutron:LOADBALANCERV2" then
    api.NETWORK_INTERFACE_ASSOCIATE_TYPE_LOADBALANCER
  else if port.DeviceOwner = "neutron:VIP_PORT" then
    api.NETWORK_INTERFACE_ASSOCIATE_TYPE_VIP
  else if HasPrefix port.DeviceOwner "compute:" then
    api.NETWORK_INTERFACE_ASSOCIATE_TYPE_SERVER
  else
    port.DeviceOwner

/-- Go `(*Port).GetAssociateId`. -/
def Port.GetAssociateId (port : Port) : String := port.DeviceID

/-- Go `(*Port).GetStatus`. -/
def Port.GetStatus (api : ApiConstants) (port : Port) : String :=
  if port.Status = "ACTIVE" ∨ port.Status = "DOWN" then
    api.NETWORK_INTERFACE_STATUS_AVAILABLE
  else if port.Status = "BUILD" then
    api.NETWORK_INTERFACE_STATUS_CREATING
  else
    port.Status

/-- A port whose fields are all empty except the ones given; used for concrete runs. -/
def mkPort (id name status networkID deviceOwner : String) (fixedIps : List SFixedIP) : Port :=
  { ID := id, Name := name, Status := status, AdminStateUp := "", DNSName := "",
    MACAddress := "", NetworkID := networkID, TenantID := "", DeviceID := "",
    DeviceOwner := deviceOwner, BindingVnicType := "", FixedIps := fixedIps }

/-- Modelled from the spec: the values of the `api` constants, which are declared in
`pkg/apis/compute`, outside `port.go`: the canonical names available and creating for
the statuses, and server, reserved, dhcp, loadbalancer and vip for the association
types. -/
def sampleApi : ApiConstants :=
  { NETWORK_INTERFACE_ASSOCIATE_TYPE_SERVER := "server",
    NETWORK_INTERFACE_ASSOCIATE_TYPE_RESERVED := "reserved",
    NETWORK_INTERFACE_ASSOCIATE_TYPE_DHCP := "dhcp",
    NETWORK_INTERFACE_ASSOCIATE_TYPE_LOADBALANCER := "loadbalancer",
    NETWORK_INTERFACE_ASSOCIATE_TYPE_VIP := "vip",
    NETWORK_INTERFACE_STATUS_AVAILABLE := "available",
    NETWORK_INTERFACE_STATUS_CREATING := "creating" }

/-! ## The collaborator and the effect model -/

/-- Go `error` values: an error raised by the collaborator, or `errors.Wrapf(cause, msg)`
with the formatted message. -/
inductive Error where
  | raised (msg : String)
  | wrapf (cause : Error) (msg : String)
  deriving DecidableEq, Repr

/-- Go `url.Values` (`map[string][]string`): a finite map, read by key. A `nil` map
reads as the empty map. -/
structure Values where
  lookup : String → Option (List String)

/-- Go `url.Values{}`. -/
def Values.empty : Values := ⟨fun _ => none⟩

/-- Go `url.Values.Set`: the key is bound to the one-element slice holding the value. -/
def Values.Set (v : Values) (key value : String) : Values :=
  ⟨fun k => if k = key then some [value] else v.lookup k⟩

/-- The dynamic values `UpdatePort` stores under the keys of its `port` object. -/
inductive PortField where
  | name (v : String)
  | security_groups (v : Option (List String))
  | allowed_address_pairs (v : Option (List AllowedAddressPair))
  | extra_dhcp_opts (v : Option (List ExtraDhcpOpt))
  deriving DecidableEq, Repr

/-- The request body of `UpdatePort`, a `map[string]interface{}` whose values are
themselves `map[string]interface{}`; a map literal is listed key by key. -/
abbrev Params := List (String × List (String × PortField))

/-- The collaborator of `port.go`: the region's `list` and `put` calls and the decoding
of a response, over an explicit provider state `σ` and response type `ρ`. A call
returns its result or error together with the provider's next state. -/
structure SRegion (σ ρ : Type) where
  SERVICE_VPC : String
  list : σ → String → String → Values → Except Error ρ × σ
  put : σ → String → String → Params → Except Error ρ × σ
  UnmarshalPorts : ρ → String → Except Error (List Port)
  UnmarshalPort : ρ → String → Except Error Port

/-- One list call of `GetPorts` as observed from outside: the arguments passed to
`list`, and the page decoded from the response or the error of the call or decode. -/
structure Call where
  service : String
  resource : String
  query : Values
  page : Except Error (List Port)

/-- A request issued to the collaborator by `GetPort` or `UpdatePort`. -/
inductive Request where
  | list (service resource : String) (query : Values)
  | put (service resource : String) (body : Params)

/-- The observable outcome of running an operation against the collaborator: what it
returned (`none` while it has not returned within the given number of loop
iterations), the collaborator calls it issued in order, and the provider's state. -/
structure Run (σ κ α : Type) where
  returned : Option α
  calls : List κ
  state : σ

/-! ## Interface addresses -/

/-- A `cloudprovider.ICloudInterfaceAddress` built by `GetICloudInterfaceAddresses`:
the pointer `&port.FixedIps[index]`. -/
structure FixedIPRef where
  index : Nat
  deriving DecidableEq, Repr

/-- Reading through the pointer `&port.FixedIps[index]`. -/
def Port.deref (port : Port) (a : FixedIPRef) : Option SFixedIP :=
  port.FixedIps[a.index]?

/-- The assignment `port.FixedIps[i].NetworkId = port.NetworkID`. -/
def Port.setFixedIpNetworkId (port : Port) (i : Nat) : Port :=
  { port with
    FixedIps := port.FixedIps.modify (fun fixip => { fixip with NetworkId := port.NetworkID }) i }

/-- The `for i := 0; i < len(port.FixedIps); i++` loop of `GetICloudInterfaceAddresses`,
run for at most the given number of iterations (`none`: more were needed). -/
def GetICloudInterfaceAddresses.loop :
    Nat → Nat → Port → List FixedIPRef → Option (Port × List FixedIPRef)
  | fuel, i, port, address =>
    if i < port.FixedIps.length then
      match fuel with
      | 0 => none
      | fuel + 1 =>
        GetICloudInterfaceAddresses.loop fuel (i + 1) (port.setFixedIpNetworkId i)
          (address ++ [⟨i⟩])
    else
      some (port, address)

/-- Go `(*Port).GetICloudInterfaceAddresses`: the port after the call and the returned
pair, with one loop iteration allowed per fixed IP. -/
def Port.GetICloudInterfaceAddresses (port : Port) :
    Option (Port × (Option (List FixedIPRef) × Option Error)) :=
  match GetICloudInterfaceAddresses.loop port.FixedIps.length 0 port [] with
  | none => none
  | some (port, address) => some (port, (some address, none))

/-- The backfill of one fixed IP: its `NetworkId` replaced by the given network id. -/
def SFixedIP.withNetworkId (networkID : String) (fixip : SFixedIP) : SFixedIP :=
  { fixip with NetworkId := networkID }

/-- A sample port on network "net-1" with two fixed IPs whose `NetworkId` is empty. -/
def samplePort : Port :=
  mkPort "port-1" "" "ACTIVE" "net-1" "compute:nova"
    [⟨"10.0.0.4", "subnet-a", ""⟩, ⟨"10.0.0.5", "subnet-b", ""⟩]

/-! ## Region operations -/

/-- Go `(*SRegion).GetINetworkInterfaces`. -/
def SRegion.GetINetworkInterfaces {σ ρ : Type} (_region : SRegion σ ρ) (st : σ) :
    Run σ Request (Option (List Port) × Option Error) :=
  { returned := some (some [], none), calls := [], state := st }

/-- Go `(*SRegion).GetPort`. -/
def SRegion.GetPort {σ ρ : Type} (self : SRegion σ ρ) (st : σ) (id : String) :
    Run σ Request (Option Port × Option Error) :=
  let calls := [Request.list self.SERVICE_VPC ("ports/" ++ id) Values.empty]
  match self.list st self.SERVICE_VPC ("ports/" ++ id) Values.empty with
  | (.error err, st) =>
    { returned := some (none, some (Error.wrapf err "get port")), calls := calls, state := st }
  | (.ok resp, st) =>
    match self.UnmarshalPort resp "port" with
    | .error err => { returned := some (none, some err), calls := calls, state := st }
    | .ok port => { returned := some (some port, none), calls := calls, state := st }

/-- The `for` loop of `GetPorts`, run for at most the given number of iterations, from
the provider state, the current `query`, the accumulator `ret` and the calls issued
so far. -/
def GetPorts.loop {σ ρ : Type} (self : SRegion σ ρ) :
    Nat → σ → Values → List Port → List Call →
      Run σ Call (Option (List Port) × Option Error)
  | 0, st, _, _, calls => { returned := none, calls := calls, state := st }
  | fuel + 1, st, query, ret, calls =>
    match self.list st self.SERVICE_VPC "ports" query with
    | (.error err, st) =>
      { returned := some (none, some err),
        calls := calls ++ [⟨self.SERVICE_VPC, "ports", query, .error err⟩], state := st }
    | (.ok resp, st) =>
      match self.UnmarshalPorts resp "ports" with
      | .error err =>
        { returned := some (none, some err),
          calls := calls ++ [⟨self.SERVICE_VPC, "ports", query, .error err⟩], state := st }
      | .ok part =>
        let ret := ret ++ part
        let calls := calls ++ [⟨self.SERVICE_VPC, "ports", query, .ok part⟩]
        if h : part.length = 0 then
          { returned := some (some ret, none), calls := calls, state := st }
        else
          GetPorts.loop self fuel st
            (query.Set "marker" (part.get ⟨part.length - 1, by omega⟩).ID) ret calls

/-- Go `(*SRegion).GetPorts`, with its loop run for at most `fuel` iterations. -/
def SRegion.GetPorts {σ ρ : Type} (self : SRegion σ ρ) (fuel : Nat) (st : σ)
    (instanceId : String) : Run σ Call (Option (List Port) × Option Error) :=
  let ret : List Port := []
  let query := Values.empty
  let query := if len instanceId > 0 then query.Set "device_id" instanceId else query
  GetPorts.loop self fuel st query ret []

/-- Go `(*SRegion).UpdatePort`. -/
def SRegion.UpdatePort {σ ρ : Type} (self : SRegion σ ρ) (st : σ) (id : String)
    (opts : UpdatePortOpts) : Run σ Request (Option Error) :=
  let params : Params :=
    [("port",
      [("name", PortField.name opts.Name),
       ("security_groups", PortField.security_groups opts.SecurityGroups),
       ("allowed_address_pairs", PortField.allowed_address_pairs opts.AllowedAddressPairs),
       ("extra_dhcp_opts", PortField.extra_dhcp_opts opts.ExtraDhcpOpts)])]
  let calls := [Request.put self.SERVICE_VPC ("ports/" ++ id) params]
  match self.put st self.SERVICE_VPC ("ports/" ++ id) params with
  | (.error err, st) =>
    { returned := some (some (Error.wrapf err ("update port " ++ id))), calls := calls,
      state := st }
  | (.ok _, st) => { returned := some none, calls := calls, state := st }

/-! ## Providers: what a run is measured against -/

/-- The query `GetPorts` builds before its loop: empty, with `device_id` set when the
instance id is non-empty. -/
def GetPorts.initialQuery (instanceId : String) : Values :=
  if len instanceId > 0 then Values.empty.Set "device_id" instanceId else Values.empty

/-- One page exchange with the collaborator as `GetPorts` performs it: the list call on
"ports" with the query, then the decoding of the response under the key "ports". -/
def SRegion.fetchPorts {σ ρ : Type} (self : SRegion σ ρ) (st : σ) (query : Values) :
    Except Error (List Port) × σ :=
  match self.list st self.SERVICE_VPC "ports" query with
  | (.error err, st) => (.error err, st)
  | (.ok resp, st) => (self.UnmarshalPorts resp "ports", st)

/-- The provider, asked from state `st` first with `query` and then each time with the
marker moved to the last id of the page it just gave, answers with the pages `pages`
in order, every one non-empty, and answers the call after them with `final`. -/
def Answers {σ ρ : Type} (self : SRegion σ ρ) :
    σ → Values → List (List Port) → Except Error (List Port) → Prop
  | st, query, [], final => (self.fetchPorts st query).1 = final
  | st, query, page :: pages, final =>
    (self.fetchPorts st query).1 = .ok page ∧
    ∃ last : Port, page.getLast? = some last ∧
      Answers self (self.fetchPorts st query).2 (query.Set "marker" last.ID) pages final

/-- The calls of a run are chained from `query`: the first is made with `query`, and
each later one with the query of the call before it, `marker` set to the id of the
last port of the page that call returned. -/
def Chained : Values → List Call → Prop
  | _, [] => True
  | query, c :: rest =>
    c.query = query ∧
    (rest = [] ∨ ∃ (page : List Port) (last : Port),
      c.page = .ok page ∧ page.getLast? = some last ∧
        Chained (query.Set "marker" last.ID) rest)

/-- A mock provider: it holds `ports` and serves them in pages of `size`, a page
starting after the port whose id the `marker` names; its state counts the calls
received. The call numbered `failList` fails, and the response of the call numbered
`failDecode` does not decode (0: no such call). -/
structure Mock where
  ports : List Port
  size : Nat
  failList : Nat
  failDecode : Nat

/-- The collaborator record of a mock provider. -/
def Mock.region (m : Mock) : SRegion Nat (Option (List Port)) where
  SERVICE_VPC := "vpc"
  list := fun n _ _ query =>
    if n + 1 = m.failList then (.error (.raised "list failed"), n + 1)
    else if n + 1 = m.failDecode then (.ok none, n + 1)
    else
      match query.lookup "marker" with
      | none => (.ok (some (m.ports.take m.size)), n + 1)
      | some ids =>
        (.ok (some (((m.ports.dropWhile (fun p => !(ids.contains p.ID))).drop 1).take m.size)),
          n + 1)
  put := fun n _ _ _ => (.ok none, n + 1)
  UnmarshalPorts := fun resp _ =>
    match resp with
    | some ports => .ok ports
    | none => .error (.raised "decode failed")
  UnmarshalPort := fun resp _ =>
    match resp with
    | some [port] => .ok port
    | _ => .error (.raised "decode failed")

/-- The ports "port-0", ..., "port-(n-1)". -/
def numberedPorts (n : Nat) : List Port :=
  (List.range n).map (fun i => mkPort ("port-" ++ toString i) "" "ACTIVE" "net-1" "" [])

/-- What `GetPorts` returns once the provider has answered `final` to the last call:
the accumulator `acc` when that answer is a page, the error alone when it is one. -/
def GetPorts.finish (acc : List Port) :
    Except Error (List Port) → Option (List Port) × Option Error
  | .ok _ => (some acc, none)
  | .error err => (none, some err)

/-- The pages of `size` ports each into which a mock provider cuts its `n` numbered
ports. -/
def numberedPages (n size : Nat) : Nat → List (List Port)
  | 0 => []
  | k + 1 => numberedPages n size k ++ [((numberedPorts n).drop (k * size)).take size]

/-- The number of ports of the page a list call returned (0 for a failed call). -/
def Call.size (c : Call) : Nat :=
  match c.page with
  | .ok page => page.length
  | .error _ => 0

/-- Whether the list call, or the decoding of its response, failed. -/
def Call.failed (c : Call) : Bool :=
  match c.page with
  | .ok _ => false
  | .error _ => true

/-- A mock provider whose `put` fails with the given error; its other calls are those
of the mock provider holding one port. -/
def putFailsRegion (err : Error) : SRegion Nat (Option (List Port)) :=
  { Mock.region ⟨numberedPorts 1, 1, 0, 0⟩ with put := fun n _ _ _ => (.error err, n + 1) }

/-- A provider that answers every list call, whatever the query, with the same page. -/
def constantRegion (page : List Port) : SRegion Nat (List Port) where
  SERVICE_VPC := "vpc"
  list := fun n _ _ _ => (.ok page, n + 1)
  put := fun n _ _ _ => (.ok [], n + 1)
  UnmarshalPorts := fun resp _ => .ok resp
  UnmarshalPort := fun resp _ =>
    match resp with
    | [port] => .ok port
    | _ => .error (.raised "decode failed")

/-- Options of `UpdatePort` with every field left empty. -/
def emptyOpts : UpdatePortOpts :=
  { Name := "", SecurityGroups := none, AllowedAddressPairs := none, ExtraDhcpOpts := none }

/-- The keys of the `port` object of a request body (`none`: the body has no `port`). -/
def portKeys (body : Params) : Option (List String) :=
  (body.lookup "port").map (fun fields => fields.map Prod.fst)

/-- The string is none of the case labels of the `switch` in `GetStatus`. -/
def notStatusLabel (s : String) : Prop :=
  s ≠ "ACTIVE" ∧ s ≠ "DOWN" ∧ s ≠ "BUILD"

/-- The string is none of the case labels of the `switch` in `GetAssociateType` and does
not start with "compute:". -/
def notOwnerLabel (s : String) : Prop :=
  s ≠ "compute:nova" ∧ s ≠ "network:router_gateway" ∧ s ≠ "network:router_interface" ∧
  s ≠ "network:router_interface_distributed" ∧ s ≠ "network:dhcp" ∧
  s ≠ "neutron:LOADBALANCERV2" ∧ s ≠ "neutron:VIP_PORT" ∧ HasPrefix s "compute:" = false

/-- The canonical constants are outside the provider's vocabulary: the two statuses are
no case label of `GetStatus`, and the five association types are no case label of
`GetAssociateType` and do not start with "compute:". -/
def ApiConstants.Canonical (api : ApiConstants) : Prop :=
  notStatusLabel api.NETWORK_INTERFACE_STATUS_AVAILABLE ∧
  notStatusLabel api.NETWORK_INTERFACE_STATUS_CREATING ∧
  notOwnerLabel api.NETWORK_INTERFACE_ASSOCIATE_TYPE_SERVER ∧
  notOwnerLabel api.NETWORK_INTERFACE_ASSOCIATE_TYPE_RESERVED ∧
  notOwnerLabel api.NETWORK_INTERFACE_ASSOCIATE_TYPE_DHCP ∧
  notOwnerLabel api.NETWORK_INTERFACE_ASSOCIATE_TYPE_LOADBALANCER ∧
  notOwnerLabel api.NETWORK_INTERFACE_ASSOCIATE_TYPE_VIP

instance (s : String) : Decidable (notStatusLabel s) := by
  unfold notStatusLabel; infer_instance

instance (s : String) : Decidable (notOwnerLabel s) := by
  unfold notOwnerLabel; infer_instance

instance (api : ApiConstants) : Decidable api.Canonical := by
  unfold ApiConstants.Canonical; infer_instance

/-- The sizes strictly decrease: every one is smaller than the one before it. -/
def strictlyDecreasing : List Nat → Bool
  | a :: b :: rest => decide (b < a) && strictlyDecreasing (b :: rest)
  | _ => true

/-! ## Shared lemmas on Go strings -/

theorem len_pos_iff (s : String) : 0 < len s ↔ s ≠ "" := by
  obtain ⟨cs⟩ := s
  cases cs with
  | nil => simp [len, String.utf8ByteSize, String.utf8ByteSize.go]
  | cons c cs =>
    have hc := Char.utf8Size_pos c
    constructor
    · intro _ h
      have := congrArg String.data h
      simp at this
    · intro _
      simp only [len, String.utf8ByteSize, String.utf8ByteSize.go]
      omega

theorem hasPrefix_iff (s pre : String) :
    HasPrefix s pre = true ↔ ∃ rest : String, s = pre ++ rest := by
  unfold HasPrefix
  rw [List.isPrefixOf_iff_prefix]
  constructor
  · rintro ⟨t, ht⟩
    exact ⟨⟨t⟩, String.ext (by simp [String.data_append, ht])⟩
  · rintro ⟨rest, rfl⟩
    exact ⟨rest.data, by simp [String.data_append]⟩

theorem hasPrefix_compute_of_eq {s : String} {lit : String}
    (hlit : HasPrefix lit "compute:" = false) (h : s = lit) :
    HasPrefix s "compute:" = false := by
  rw [h]; exact hlit

/-! ## Status and association normalisers -/

/-- C4: `GetStatus` returns AVAILABLE for the raw statuses "ACTIVE" and "DOWN", CREATING
for "BUILD", and every other raw status string unchanged. -/
theorem GetStatus_spec (api : ApiConstants) (port : Port) :
    (port.Status = "ACTIVE" ∨ port.Status = "DOWN" →
      port.GetStatus api = api.NETWORK_INTERFACE_STATUS_AVAILABLE) ∧
    (port.Status = "BUILD" → port.GetStatus api = api.NETWORK_INTERFACE_STATUS_CREATING) ∧
    (port.Status ≠ "ACTIVE" → port.Status ≠ "DOWN" → port.Status ≠ "BUILD" →
      port.GetStatus api = port.Status) := by
  refine ⟨?_, ?_, ?_⟩
  · intro h
    simp [Port.GetStatus, h]
  · intro h
    simp [Port.GetStatus, h]
  · intro h1 h2 h3
    simp [Port.GetStatus, h1, h2, h3]

/-- Witness of C4 on the raw statuses "ACTIVE", "DOWN", "BUILD" and "ERROR". -/
theorem GetStatus_spec_witness :
    (mkPort "p" "" "ACTIVE" "" "" []).GetStatus sampleApi = "available" ∧
    (mkPort "p" "" "DOWN" "" "" []).GetStatus sampleApi = "available" ∧
    (mkPort "p" "" "BUILD" "" "" []).GetStatus sampleApi = "creating" ∧
    (mkPort "p" "" "ERROR" "" "" []).GetStatus sampleApi = "ERROR" :=
  ⟨(GetStatus_spec sampleApi (mkPort "p" "" "ACTIVE" "" "" [])).1 (Or.inl rfl),
   (GetStatus_spec sampleApi (mkPort "p" "" "DOWN" "" "" [])).1 (Or.inr rfl),
   (GetStatus_spec sampleApi (mkPort "p" "" "BUILD" "" "" [])).2.1 rfl,
   (GetStatus_spec sampleApi (mkPort "p" "" "ERROR" "" "" [])).2.2
     (by decide) (by decide) (by decide)⟩

/-- C5: for every `DeviceOwner` that starts with "compute:" (the prefix followed by any
string, the empty one included), `GetAssociateType` returns SERVER. -/
theorem GetAssociateType_compute (api : ApiConstants) (port : Port) (rest : String)
    (h : port.DeviceOwner = "compute:" ++ rest) :
    port.GetAssociateType api = api.NETWORK_INTERFACE_ASSOCIATE_TYPE_SERVER := by
  have hp : HasPrefix port.DeviceOwner "compute:" = true :=
    (hasPrefix_iff _ _).2 ⟨rest, h⟩
  have hne : ∀ lit : String, HasPrefix lit "compute:" = false → port.DeviceOwner ≠ lit := by
    intro lit hlit heq
    rw [hasPrefix_compute_of_eq hlit heq] at hp
    exact Bool.noConfusion hp
  have h1 := hne "network:router_gateway" (by decide)
  have h2 := hne "network:router_interface" (by decide)
  have h3 := hne "network:router_interface_distributed" (by decide)
  have h4 := hne "network:dhcp" (by decide)
  have h5 := hne "neutron:LOADBALANCERV2" (by decide)
  have h6 := hne "neutron:VIP_PORT" (by decide)
  unfold Port.GetAssociateType
  by_cases h0 : port.DeviceOwner = "compute:nova"
  · rw [if_pos h0]
  · rw [if_neg h0, if_neg (by simp [h1, h2, h3]), if_neg h4, if_neg h5, if_neg h6, if_pos hp]

/-- Witness of C5 on "compute:nova", the bare prefix "compute:" and "compute:xyz". -/
theorem GetAssociateType_compute_witness :
    (mkPort "p" "" "" "" "compute:nova" []).GetAssociateType sampleApi = "server" ∧
    (mkPort "p" "" "" "" "compute:" []).GetAssociateType sampleApi = "server" ∧
    (mkPort "p" "" "" "" "compute:xyz" []).GetAssociateType sampleApi = "server" :=
  ⟨GetAssociateType_compute sampleApi (mkPort "p" "" "" "" "compute:nova" []) "nova" (by decide),
   GetAssociateType_compute sampleApi (mkPort "p" "" "" "" "compute:" []) "" (by decide),
   GetAssociateType_compute sampleApi (mkPort "p" "" "" "" "compute:xyz" []) "xyz" (by decide)⟩

/-- C6: `GetAssociateType` maps the three `network:router_*` values to RESERVED,
"network:dhcp" to DHCP, "neutron:LOADBALANCERV2" to LOADBALANCER and "neutron:VIP_PORT"
to VIP, whatever the other fields of the port. -/
theorem GetAssociateType_exact (api : ApiConstants) (port : Port) :
    ({ port with DeviceOwner := "network:router_gateway" }.GetAssociateType api
        = api.NETWORK_INTERFACE_ASSOCIATE_TYPE_RESERVED) ∧
    ({ port with DeviceOwner := "network:router_interface" }.GetAssociateType api
        = api.NETWORK_INTERFACE_ASSOCIATE_TYPE_RESERVED) ∧
    ({ port with DeviceOwner := "network:router_interface_distributed" }.GetAssociateType api
        = api.NETWORK_INTERFACE_ASSOCIATE_TYPE_RESERVED) ∧
    ({ port with DeviceOwner := "network:dhcp" }.GetAssociateType api
        = api.NETWORK_INTERFACE_ASSOCIATE_TYPE_DHCP) ∧
    ({ port with DeviceOwner := "neutron:LOADBALANCERV2" }.GetAssociateType api
        = api.NETWORK_INTERFACE_ASSOCIATE_TYPE_LOADBALANCER) ∧
    ({ port with DeviceOwner := "neutron:VIP_PORT" }.GetAssociateType api
        = api.NETWORK_INTERFACE_ASSOCIATE_TYPE_VIP) := by
  refine ⟨?_, ?_, ?_, ?_, ?_, ?_⟩ <;> simp [Port.GetAssociateType]

/-- C7: for every `DeviceOwner` that does not start with "compute:" and is none of the
six listed `network:`/`neutron:` values, `GetAssociateType` returns the `DeviceOwner`
string itself (a total function: there is no failing outcome). -/
theorem GetAssociateType_passthrough (api : ApiConstants) (port : Port)
    (hcompute : ∀ rest : String, port.DeviceOwner ≠ "compute:" ++ rest)
    (h1 : port.DeviceOwner ≠ "network:router_gateway")
    (h2 : port.DeviceOwner ≠ "network:router_interface")
    (h3 : port.DeviceOwner ≠ "network:router_interface_distributed")
    (h4 : port.DeviceOwner ≠ "network:dhcp")
    (h5 : port.DeviceOwner ≠ "neutron:LOADBALANCERV2")
    (h6 : port.DeviceOwner ≠ "neutron:VIP_PORT") :
    port.GetAssociateType api = port.DeviceOwner := by
  have h0 : port.DeviceOwner ≠ "compute:nova" := hcompute "nova"
  have hp : ¬ HasPrefix port.DeviceOwner "compute:" = true := by
    intro hp
    obtain ⟨rest, hr⟩ := (hasPrefix_iff _ _).1 hp
    exact hcompute rest hr
  unfold Port.GetAssociateType
  rw [if_neg h0, if_neg (by simp [h1, h2, h3]), if_neg h4, if_neg h5, if_neg h6, if_neg hp]

theorem not_compute_of_hasPrefix_false {s : String} (h : HasPrefix s "compute:" = false) :
    ∀ rest : String, s ≠ "compute:" ++ rest := by
  intro rest hr
  have := (hasPrefix_iff s "compute:").2 ⟨rest, hr⟩
  rw [h] at this
  exact Bool.noConfusion this

/-- Witness of C7 on the empty string and on "something-else". -/
theorem GetAssociateType_passthrough_witness :
    (mkPort "p" "" "" "" "" []).GetAssociateType sampleApi = "" ∧
    (mkPort "p" "" "" "" "something-else" []).GetAssociateType sampleApi = "something-else" :=
  ⟨GetAssociateType_passthrough sampleApi (mkPort "p" "" "" "" "" [])
      (not_compute_of_hasPrefix_false (by decide))
      (by decide) (by decide) (by decide) (by decide) (by decide) (by decide),
   GetAssociateType_passthrough sampleApi (mkPort "p" "" "" "" "something-else" [])
      (not_compute_of_hasPrefix_false (by decide))
      (by decide) (by decide) (by decide) (by decide) (by decide) (by decide)⟩

/-- C10: `GetName` returns `Name` when `Name` is non-empty and `ID` when `Name` is the
empty string. -/
theorem GetName_spec (port : Port) :
    (port.Name ≠ "" → port.GetName = port.Name) ∧ (port.Name = "" → port.GetName = port.ID) := by
  constructor
  · intro h
    have hpos : len port.Name > 0 := (len_pos_iff _).2 h
    simp [Port.GetName, hpos]
  · intro h
    have hz : ¬ len port.Name > 0 := by
      intro hpos
      exact (len_pos_iff _).1 hpos h
    simp [Port.GetName, hz]

/-- Witness of C10 on a named and on an unnamed port. -/
theorem GetName_spec_witness :
    (mkPort "port-1" "eth0" "" "" "" []).GetName = "eth0" ∧
    (mkPort "port-1" "" "" "" "" []).GetName = "port-1" :=
  ⟨(GetName_spec (mkPort "port-1" "eth0" "" "" "" [])).1 (by decide),
   (GetName_spec (mkPort "port-1" "" "" "" "" [])).2 rfl⟩

/-! ## Interface addresses -/

theorem take_modify_succ {α : Type} (f : α → α) :
    ∀ (l : List α) (i : Nat), i < l.length →
      (l.modify f i).take (i + 1) ++ ((l.modify f i).drop (i + 1)).map f
        = l.take i ++ (l.drop i).map f := by
  intro l
  induction l with
  | nil => intro i h; simp at h
  | cons a t ih =>
    intro i h
    cases i with
    | zero => simp [List.modify]
    | succ k =>
      have hk : k < t.length := by simpa using h
      simpa [List.modify] using ih k hk

/-- The address loop started at index `i` with enough iterations left: it backfills the
fixed IPs from `i` on, leaves every other field alone and appends the pointers
`i, i+1, ..., len-1`. -/
theorem addresses_loop_eq :
    ∀ (fuel i : Nat) (port : Port) (address : List FixedIPRef),
      i ≤ port.FixedIps.length → port.FixedIps.length - i ≤ fuel →
      GetICloudInterfaceAddresses.loop fuel i port address
        = some ({ port with
                  FixedIps := port.FixedIps.take i
                    ++ (port.FixedIps.drop i).map (SFixedIP.withNetworkId port.NetworkID) },
                address ++ (List.range' i (port.FixedIps.length - i)).map FixedIPRef.mk) := by
  intro fuel
  induction fuel with
  | zero =>
    intro i port address hi hfuel
    have hlen : i = port.FixedIps.length := by omega
    unfold GetICloudInterfaceAddresses.loop
    rw [if_neg (by omega)]
    subst hlen
    simp
  | succ fuel ih =>
    intro i port address hi hfuel
    unfold GetICloudInterfaceAddresses.loop
    by_cases hlt : i < port.FixedIps.length
    · rw [if_pos hlt]
      have hlen : (port.setFixedIpNetworkId i).FixedIps.length = port.FixedIps.length := by
        simp [Port.setFixedIpNetworkId]
      have hstep := ih (i + 1) (port.setFixedIpNetworkId i) (address ++ [⟨i⟩])
        (by rw [hlen]; omega) (by rw [hlen]; omega)
      simp only [] at hstep ⊢
      rw [hstep, hlen]
      have hfix := take_modify_succ (SFixedIP.withNetworkId port.NetworkID) port.FixedIps i hlt
      have hrange : List.range' i (port.FixedIps.length - i)
          = i :: List.range' (i + 1) (port.FixedIps.length - (i + 1)) := by
        have : port.FixedIps.length - i = (port.FixedIps.length - (i + 1)) + 1 := by omega
        rw [this, List.range'_succ]
      rw [hrange]
      simp only [Port.setFixedIpNetworkId] at hfix ⊢
      simp only [List.map_cons, List.append_assoc, List.singleton_append]
      congr 2
      rw [← hfix]
      rfl
    · rw [if_neg hlt]
      have hlen : i = port.FixedIps.length := by omega
      subst hlen
      simp

/-- The closed form of `GetICloudInterfaceAddresses`: it returns, with every fixed IP
backfilled and nothing else changed, the pointers to the fixed IPs in order. -/
theorem GetICloudInterfaceAddresses_eq (port : Port) :
    port.GetICloudInterfaceAddresses
      = some ({ port with
                FixedIps := port.FixedIps.map (SFixedIP.withNetworkId port.NetworkID) },
              (some ((List.range port.FixedIps.length).map FixedIPRef.mk), none)) := by
  unfold Port.GetICloudInterfaceAddresses
  rw [addresses_loop_eq port.FixedIps.length 0 port [] (Nat.zero_le _) (by omega)]
  simp [List.range_eq_range']

/-- C8: `GetICloudInterfaceAddresses` returns, with no error, one record per fixed IP in
the order of `FixedIps`; the i-th record reports the i-th fixed IP's `IpAddress` as IP
and as global id, the port's `NetworkID` as network id, and is primary. -/
theorem GetICloudInterfaceAddresses_spec (port : Port) :
    ∃ (port' : Port) (address : List FixedIPRef),
      port.GetICloudInterfaceAddresses = some (port', (some address, none)) ∧
      address.length = port.FixedIps.length ∧
      ∀ (i : Nat) (h : i < port.FixedIps.length),
        ∃ (a : FixedIPRef) (record : SFixedIP),
          address[i]? = some a ∧ port'.deref a = some record ∧
          record.GetIP = port.FixedIps[i].IpAddress ∧
          record.GetGlobalId = port.FixedIps[i].IpAddress ∧
          record.GetINetworkId = port.NetworkID ∧
          record.IsPrimary = true := by
  refine ⟨_, _, GetICloudInterfaceAddresses_eq port, by simp, ?_⟩
  intro i h
  refine ⟨⟨i⟩, SFixedIP.withNetworkId port.NetworkID port.FixedIps[i], ?_, ?_, rfl, rfl, rfl, rfl⟩
  · simp [List.getElem?_range h]
  · simp [Port.deref, List.getElem?_eq_getElem h]

/-- Witness of C8 on a port of network "net-1" with two fixed IPs: both records report
network "net-1", their own address, and are primary. -/
theorem GetICloudInterfaceAddresses_spec_witness :
    ∃ (port' : Port) (address : List FixedIPRef),
      samplePort.GetICloudInterfaceAddresses = some (port', (some address, none)) ∧
      address.length = 2 ∧
      (∃ (a : FixedIPRef) (record : SFixedIP),
          address[0]? = some a ∧ port'.deref a = some record ∧
          record.GetIP = "10.0.0.4" ∧ record.GetGlobalId = "10.0.0.4" ∧
          record.GetINetworkId = "net-1" ∧ record.IsPrimary = true) ∧
      (∃ (a : FixedIPRef) (record : SFixedIP),
          address[1]? = some a ∧ port'.deref a = some record ∧
          record.GetIP = "10.0.0.5" ∧ record.GetGlobalId = "10.0.0.5" ∧
          record.GetINetworkId = "net-1" ∧ record.IsPrimary = true) := by
  obtain ⟨port', address, hret, hlen, hrec⟩ := GetICloudInterfaceAddresses_spec samplePort
  exact ⟨port', address, hret, hlen, hrec 0 (by decide), hrec 1 (by decide)⟩

/-- C9: for every region and provider state, `GetINetworkInterfaces` returns the empty
sequence and no error, issues no call to the provider and leaves its state alone. -/
theorem GetINetworkInterfaces_spec {σ ρ : Type} (region : SRegion σ ρ) (st : σ) :
    (region.GetINetworkInterfaces st).returned = some (some [], none) ∧
    (region.GetINetworkInterfaces st).calls = [] ∧
    (region.GetINetworkInterfaces st).state = st :=
  ⟨rfl, rfl, rfl⟩

/-! ## The pagination loop of `GetPorts` -/

theorem GetPorts_loop_error {σ ρ : Type} (self : SRegion σ ρ) (fuel : Nat) (st : σ)
    (query : Values) (ret : List Port) (calls : List Call) (err : Error)
    (h : (self.fetchPorts st query).1 = .error err) :
    GetPorts.loop self (fuel + 1) st query ret calls
      = { returned := some (none, some err),
          calls := calls ++ [⟨self.SERVICE_VPC, "ports", query, .error err⟩],
          state := (self.fetchPorts st query).2 } := by
  unfold SRegion.fetchPorts at h ⊢
  unfold GetPorts.loop
  rcases hl : self.list st self.SERVICE_VPC "ports" query with ⟨r, st'⟩
  rw [hl] at h
  cases r with
  | error e =>
    simp only [] at h ⊢
    cases h
    rfl
  | ok resp =>
    simp only [] at h ⊢
    rw [h]

theorem GetPorts_loop_empty {σ ρ : Type} (self : SRegion σ ρ) (fuel : Nat) (st : σ)
    (query : Values) (ret : List Port) (calls : List Call)
    (h : (self.fetchPorts st query).1 = .ok []) :
    GetPorts.loop self (fuel + 1) st query ret calls
      = { returned := some (some ret, none),
          calls := calls ++ [⟨self.SERVICE_VPC, "ports", query, .ok []⟩],
          state := (self.fetchPorts st query).2 } := by
  unfold SRegion.fetchPorts at h ⊢
  unfold GetPorts.loop
  rcases hl : self.list st self.SERVICE_VPC "ports" query with ⟨r, st'⟩
  rw [hl] at h
  cases r with
  | error e =>
    simp only [] at h
    cases h
  | ok resp =>
    simp only [] at h ⊢
    rw [h]
    simp

theorem GetPorts_loop_page {σ ρ : Type} (self : SRegion σ ρ) (fuel : Nat) (st : σ)
    (query : Values) (ret : List Port) (calls : List Call) (part : List Port) (last : Port)
    (h : (self.fetchPorts st query).1 = .ok part) (hlast : part.getLast? = some last) :
    GetPorts.loop self (fuel + 1) st query ret calls
      = GetPorts.loop self fuel (self.fetchPorts st query).2
          (query.Set "marker" last.ID) (ret ++ part)
          (calls ++ [⟨self.SERVICE_VPC, "ports", query, .ok part⟩]) := by
  have hne : part ≠ [] := by
    intro hnil
    rw [hnil] at hlast
    cases hlast
  have hlen : ¬ part.length = 0 := by
    intro h0
    exact hne (List.length_eq_zero.mp h0)
  have hget : part.get ⟨part.length - 1, by omega⟩ = last := by
    have h1 := List.getLast?_eq_getLast part hne
    rw [hlast] at h1
    have h2 := List.getLast_eq_getElem part hne
    rw [List.get_eq_getElem, ← h2]
    exact (Option.some.inj h1).symm
  unfold SRegion.fetchPorts at h ⊢
  rw [GetPorts.loop]
  rcases hl : self.list st self.SERVICE_VPC "ports" query with ⟨r, st'⟩
  rw [hl] at h
  cases r with
  | error e =>
    simp only [] at h
    cases h
  | ok resp =>
    simp only [] at h ⊢
    rw [h]
    simp only [dif_neg hlen, hget]

/-- A provider that answers the pages `pages` and then `final`, where `final` is the
empty page or an error, makes the loop return after `pages.length + 1` iterations:
the accumulator extended by the pages, or the error alone. The pages decoded by the
calls are `pages` followed by `final`. -/
theorem GetPorts_loop_answers {σ ρ : Type} (self : SRegion σ ρ)
    (final : Except Error (List Port))
    (hfinal : final = .ok [] ∨ ∃ err, final = .error err) :
    ∀ (pages : List (List Port)) (st : σ) (query : Values) (ret : List Port)
      (calls : List Call) (fuel : Nat),
      Answers self st query pages final → pages.length + 1 ≤ fuel →
      (GetPorts.loop self fuel st query ret calls).returned
          = some (GetPorts.finish (ret ++ pages.flatten) final) ∧
      (GetPorts.loop self fuel st query ret calls).calls.map Call.page
          = calls.map Call.page ++ (pages.map Except.ok ++ [final]) := by
  intro pages
  induction pages with
  | nil =>
    intro st query ret calls fuel hans hfuel
    obtain ⟨fuel, rfl⟩ : ∃ k, fuel = k + 1 := ⟨fuel - 1, by simp at hfuel; omega⟩
    simp only [Answers] at hans
    rcases hfinal with hok | ⟨err, herr⟩
    · subst hok
      rw [GetPorts_loop_empty self fuel st query ret calls hans]
      simp [GetPorts.finish]
    · subst herr
      rw [GetPorts_loop_error self fuel st query ret calls err hans]
      simp [GetPorts.finish]
  | cons page pages ih =>
    intro st query ret calls fuel hans hfuel
    obtain ⟨fuel, rfl⟩ : ∃ k, fuel = k + 1 := ⟨fuel - 1, by simp at hfuel; omega⟩
    simp only [Answers] at hans
    obtain ⟨hpage, last, hlast, hrest⟩ := hans
    rw [GetPorts_loop_page self fuel st query ret calls page last hpage hlast]
    have hstep := ih (self.fetchPorts st query).2 (query.Set "marker" last.ID) (ret ++ page)
      (calls ++ [⟨self.SERVICE_VPC, "ports", query, .ok page⟩]) fuel hrest
      (by simp at hfuel ⊢; omega)
    refine ⟨?_, ?_⟩
    · rw [hstep.1]
      simp [List.append_assoc]
    · rw [hstep.2]
      simp [List.append_assoc]

/-- The calls a loop run adds to the ones already issued are chained from its query. -/
theorem GetPorts_loop_chained {σ ρ : Type} (self : SRegion σ ρ) :
    ∀ (fuel : Nat) (st : σ) (query : Values) (ret : List Port) (calls : List Call),
      ∃ new : List Call,
        (GetPorts.loop self fuel st query ret calls).calls = calls ++ new ∧
        Chained query new := by
  intro fuel
  induction fuel with
  | zero =>
    intro st query ret calls
    exact ⟨[], by simp [GetPorts.loop], trivial⟩
  | succ fuel ih =>
    intro st query ret calls
    rcases hf : (self.fetchPorts st query).1 with err | part
    · rw [GetPorts_loop_error self fuel st query ret calls err hf]
      exact ⟨[⟨self.SERVICE_VPC, "ports", query, .error err⟩], rfl, rfl, Or.inl rfl⟩
    · rcases hl : part.getLast? with _ | last
      · have hnil : part = [] := List.getLast?_eq_none_iff.mp hl
        subst hnil
        rw [GetPorts_loop_empty self fuel st query ret calls hf]
        exact ⟨[⟨self.SERVICE_VPC, "ports", query, .ok []⟩], rfl, rfl, Or.inl rfl⟩
      · rw [GetPorts_loop_page self fuel st query ret calls part last hf hl]
        obtain ⟨new, hnew, hchain⟩ := ih (self.fetchPorts st query).2
          (query.Set "marker" last.ID) (ret ++ part)
          (calls ++ [⟨self.SERVICE_VPC, "ports", query, .ok part⟩])
        refine ⟨⟨self.SERVICE_VPC, "ports", query, .ok part⟩ :: new, ?_, rfl, ?_⟩
        · rw [hnew]
          simp
        · exact Or.inr ⟨part, last, rfl, hl, hchain⟩

/-- In a chained list of calls, every call but the last returned a page with a last
port, and the next call's query is its own with `marker` set to that port's id. -/
theorem chained_next :
    ∀ (calls : List Call) (query : Values), Chained query calls →
      ∀ (i : Nat) (h : i + 1 < calls.length),
        ∃ (page : List Port) (last : Port),
          calls[i].page = .ok page ∧ page.getLast? = some last ∧
          calls[i + 1].query = calls[i].query.Set "marker" last.ID := by
  intro calls
  induction calls with
  | nil => intro query _ i h; simp at h
  | cons c rest ih =>
    intro query hch i h
    obtain ⟨hq, hrest⟩ := hch
    rcases hrest with hnil | ⟨page, last, hpage, hlast, hchain⟩
    · subst hnil
      simp at h
    · cases i with
      | zero =>
        cases rest with
        | nil => simp at h
        | cons c' rest' =>
          refine ⟨page, last, hpage, hlast, ?_⟩
          simp only [List.getElem_cons_zero, List.getElem_cons_succ]
          rw [hchain.1, hq]
      | succ k =>
        have hk : k + 1 < rest.length := by simpa using h
        obtain ⟨page', last', h1, h2, h3⟩ := ih _ hchain k hk
        exact ⟨page', last', by simpa using h1, h2, by simpa using h3⟩

theorem chained_head (calls : List Call) (query : Values) (hch : Chained query calls)
    (h : 0 < calls.length) : calls[0].query = query := by
  cases calls with
  | nil => simp at h
  | cons c rest => exact hch.1

theorem initialQuery_marker (instanceId : String) :
    (GetPorts.initialQuery instanceId).lookup "marker" = none := by
  unfold GetPorts.initialQuery
  split <;> simp [Values.Set, Values.empty]

theorem GetPorts_eq_loop {σ ρ : Type} (self : SRegion σ ρ) (fuel : Nat) (st : σ)
    (instanceId : String) :
    self.GetPorts fuel st instanceId
      = GetPorts.loop self fuel st (GetPorts.initialQuery instanceId) [] [] := rfl

/-- C1: a provider that answers the successive list calls of `GetPorts` with the
non-empty pages `pages` and then with an empty page makes `GetPorts` return, with no
error, the concatenation of the pages in order after exactly `pages.length + 1` list
calls, whatever the iteration bound from `pages.length + 1` on; for page sizes
100, 100, 37 these are 237 records and 4 list calls. -/
theorem GetPorts_pages {σ ρ : Type} (self : SRegion σ ρ) (st : σ) (instanceId : String)
    (pages : List (List Port)) (fuel : Nat)
    (hans : Answers self st (GetPorts.initialQuery instanceId) pages (.ok []))
    (hfuel : pages.length + 1 ≤ fuel) :
    (self.GetPorts fuel st instanceId).returned = some (some pages.flatten, none) ∧
    (self.GetPorts fuel st instanceId).calls.map Call.page
      = pages.map Except.ok ++ [.ok []] ∧
    (self.GetPorts fuel st instanceId).calls.length = pages.length + 1 ∧
    (pages.map List.length = [100, 100, 37] →
      pages.flatten.length = 237 ∧ (self.GetPorts fuel st instanceId).calls.length = 4) := by
  have h := GetPorts_loop_answers self (.ok []) (Or.inl rfl) pages st
    (GetPorts.initialQuery instanceId) [] [] fuel hans hfuel
  rw [← GetPorts_eq_loop] at h
  have hlen : (self.GetPorts fuel st instanceId).calls.length = pages.length + 1 := by
    have := congrArg List.length h.2
    simpa using this
  refine ⟨by simpa [GetPorts.finish] using h.1, by simpa using h.2, hlen, ?_⟩
  intro hsizes
  have hcount : pages.length = 3 := by
    have := congrArg List.length hsizes
    simpa using this
  refine ⟨?_, by omega⟩
  rw [List.length_flatten, hsizes]
  rfl

/-- C2: in every run of `GetPorts`, however long, the first list call carries no
`marker`, and every later list call carries as `marker` exactly the id of the last
port of the page returned by the call just before it. -/
theorem GetPorts_marker {σ ρ : Type} (self : SRegion σ ρ) (fuel : Nat) (st : σ)
    (instanceId : String) :
    (∀ (h : 0 < (self.GetPorts fuel st instanceId).calls.length),
      (self.GetPorts fuel st instanceId).calls[0].query.lookup "marker" = none) ∧
    (∀ (i : Nat) (h : i + 1 < (self.GetPorts fuel st instanceId).calls.length),
      ∃ (page : List Port) (last : Port),
        (self.GetPorts fuel st instanceId).calls[i].page = .ok page ∧
        page.getLast? = some last ∧
        (self.GetPorts fuel st instanceId).calls[i + 1].query.lookup "marker"
          = some [last.ID]) := by
  obtain ⟨new, hnew, hch⟩ := GetPorts_loop_chained self fuel st
    (GetPorts.initialQuery instanceId) [] []
  rw [← GetPorts_eq_loop, List.nil_append] at hnew
  rw [← hnew] at hch
  constructor
  · intro h
    rw [chained_head _ _ hch h]
    exact initialQuery_marker instanceId
  · intro i h
    obtain ⟨page, last, hpage, hlast, hq⟩ := chained_next _ _ hch i h
    refine ⟨page, last, hpage, hlast, ?_⟩
    rw [hq]
    simp [Values.Set]

/-- C3: a provider that answers `k - 1` non-empty pages and whose `k`-th page fetch or
decode fails with `err` (here `k = pages.length + 1`) makes `GetPorts` return `err` and
the `nil` port list, none of the accumulated pages; the failing call is the `k`-th and
last list call. -/
theorem GetPorts_abort {σ ρ : Type} (self : SRegion σ ρ) (st : σ) (instanceId : String)
    (pages : List (List Port)) (err : Error) (fuel : Nat)
    (hans : Answers self st (GetPorts.initialQuery instanceId) pages (.error err))
    (hfuel : pages.length + 1 ≤ fuel) :
    (self.GetPorts fuel st instanceId).returned = some (none, some err) ∧
    (self.GetPorts fuel st instanceId).calls.map Call.page
      = pages.map Except.ok ++ [.error err] ∧
    (self.GetPorts fuel st instanceId).calls.length = pages.length + 1 := by
  have h := GetPorts_loop_answers self (.error err) (Or.inr ⟨err, rfl⟩) pages st
    (GetPorts.initialQuery instanceId) [] [] fuel hans hfuel
  rw [← GetPorts_eq_loop] at h
  have hlen : (self.GetPorts fuel st instanceId).calls.length = pages.length + 1 := by
    have := congrArg List.length h.2
    simpa using this
  exact ⟨by simpa [GetPorts.finish] using h.1, by simpa using h.2, hlen⟩

/-- Witness of C1: a mock provider holding five ports in pages of two answers the pages
of sizes 2, 2, 1 and then the empty page, and `GetPorts` returns the five ports after
four list calls; one holding 237 ports in pages of 100 gives 237 records after four
list calls. -/
theorem GetPorts_pages_witness :
    ((Mock.region ⟨numberedPorts 5, 2, 0, 0⟩).GetPorts 4 0 "").returned
        = some (some (numberedPorts 5), none) ∧
    ((Mock.region ⟨numberedPorts 5, 2, 0, 0⟩).GetPorts 4 0 "").calls.length = 4 ∧
    (numberedPages 237 100 3).flatten.length = 237 ∧
    ((Mock.region ⟨numberedPorts 237, 100, 0, 0⟩).GetPorts 4 0 "device-1").returned
        = some (some (numberedPages 237 100 3).flatten, none) ∧
    ((Mock.region ⟨numberedPorts 237, 100, 0, 0⟩).GetPorts 4 0 "device-1").calls.length
        = 4 := by
  have hsmall := GetPorts_pages (Mock.region ⟨numberedPorts 5, 2, 0, 0⟩) 0 ""
    (numberedPages 5 2 3) 4
    ⟨rfl, mkPort "port-1" "" "ACTIVE" "net-1" "" [], rfl,
     rfl, mkPort "port-3" "" "ACTIVE" "net-1" "" [], rfl,
     rfl, mkPort "port-4" "" "ACTIVE" "net-1" "" [], rfl, rfl⟩
    (by decide)
  have hbig := GetPorts_pages (Mock.region ⟨numberedPorts 237, 100, 0, 0⟩) 0 "device-1"
    (numberedPages 237 100 3) 4
    ⟨rfl, mkPort "port-99" "" "ACTIVE" "net-1" "" [], rfl,
     rfl, mkPort "port-199" "" "ACTIVE" "net-1" "" [], rfl,
     rfl, mkPort "port-236" "" "ACTIVE" "net-1" "" [], rfl, rfl⟩
    (by decide)
  have hsizes := hbig.2.2.2 (by decide)
  exact ⟨hsmall.1, hsmall.2.2.1, hsizes.1, hbig.1, hsizes.2⟩

/-- Witness of C2 on the mock provider holding five ports in pages of two: the run has
four list calls, the first without `marker`, the second and the fourth with the last
id of the page before. -/
theorem GetPorts_marker_witness :
    (∃ _h : 0 < ((Mock.region ⟨numberedPorts 5, 2, 0, 0⟩).GetPorts 9 0 "").calls.length,
      ((Mock.region ⟨numberedPorts 5, 2, 0, 0⟩).GetPorts 9 0 "").calls[0].query.lookup
        "marker" = none) ∧
    (∃ _h : 0 + 1 < ((Mock.region ⟨numberedPorts 5, 2, 0, 0⟩).GetPorts 9 0 "").calls.length,
      ∃ (page : List Port) (last : Port),
        ((Mock.region ⟨numberedPorts 5, 2, 0, 0⟩).GetPorts 9 0 "").calls[0].page = .ok page ∧
        page.getLast? = some last ∧
        ((Mock.region ⟨numberedPorts 5, 2, 0, 0⟩).GetPorts 9 0 "").calls[0 + 1].query.lookup
          "marker" = some [last.ID]) ∧
    (∃ _h : 2 + 1 < ((Mock.region ⟨numberedPorts 5, 2, 0, 0⟩).GetPorts 9 0 "").calls.length,
      ∃ (page : List Port) (last : Port),
        ((Mock.region ⟨numberedPorts 5, 2, 0, 0⟩).GetPorts 9 0 "").calls[2].page = .ok page ∧
        page.getLast? = some last ∧
        ((Mock.region ⟨numberedPorts 5, 2, 0, 0⟩).GetPorts 9 0 "").calls[2 + 1].query.lookup
          "marker" = some [last.ID]) :=
  ⟨⟨by decide, (GetPorts_marker (Mock.region ⟨numberedPorts 5, 2, 0, 0⟩) 9 0 "").1 (by decide)⟩,
   ⟨by decide,
    (GetPorts_marker (Mock.region ⟨numberedPorts 5, 2, 0, 0⟩) 9 0 "").2 0 (by decide)⟩,
   ⟨by decide,
    (GetPorts_marker (Mock.region ⟨numberedPorts 5, 2, 0, 0⟩) 9 0 "").2 2 (by decide)⟩⟩

/-- Witness of C3 on the mock provider holding five ports in pages of two: when its third
list call fails, and when the response of its second list call does not decode,
`GetPorts` returns that error and the `nil` list, and stops at the failing call. -/
theorem GetPorts_abort_witness :
    (((Mock.region ⟨numberedPorts 5, 2, 3, 0⟩).GetPorts 9 0 "").returned
        = some (none, some (.raised "list failed")) ∧
      ((Mock.region ⟨numberedPorts 5, 2, 3, 0⟩).GetPorts 9 0 "").calls.length = 3) ∧
    (((Mock.region ⟨numberedPorts 5, 2, 0, 2⟩).GetPorts 9 0 "").returned
        = some (none, some (.raised "decode failed")) ∧
      ((Mock.region ⟨numberedPorts 5, 2, 0, 2⟩).GetPorts 9 0 "").calls.length = 2) := by
  have hlist := GetPorts_abort (Mock.region ⟨numberedPorts 5, 2, 3, 0⟩) 0 ""
    (numberedPages 5 2 2) (.raised "list failed") 9
    ⟨rfl, mkPort "port-1" "" "ACTIVE" "net-1" "" [], rfl,
     rfl, mkPort "port-3" "" "ACTIVE" "net-1" "" [], rfl, rfl⟩
    (by decide)
  have hdecode := GetPorts_abort (Mock.region ⟨numberedPorts 5, 2, 0, 2⟩) 0 ""
    (numberedPages 5 2 1) (.raised "decode failed") 9
    ⟨rfl, mkPort "port-1" "" "ACTIVE" "net-1" "" [], rfl, rfl⟩
    (by decide)
  exact ⟨⟨hlist.1, hlist.2.2⟩, ⟨hdecode.1, hdecode.2.2⟩⟩

/-! ## `GetPort` and `UpdatePort` -/

/-- The request `UpdatePort` passes to `put`, whatever the options hold. -/
theorem UpdatePort_calls {σ ρ : Type} (self : SRegion σ ρ) (st : σ) (id : String)
    (opts : UpdatePortOpts) :
    (self.UpdatePort st id opts).calls
      = [Request.put self.SERVICE_VPC ("ports/" ++ id)
          [("port",
            [("name", PortField.name opts.Name),
             ("security_groups", PortField.security_groups opts.SecurityGroups),
             ("allowed_address_pairs",
               PortField.allowed_address_pairs opts.AllowedAddressPairs),
             ("extra_dhcp_opts", PortField.extra_dhcp_opts opts.ExtraDhcpOpts)])]] := by
  unfold SRegion.UpdatePort
  simp only []
  split <;> rfl

/-- C11, as stated, fails on the code: on a provider whose list call succeeds and whose
response does not decode, `GetPort` returns the decode error itself, not that error
wrapped with "get port". -/
theorem GetPort_decode_counterexample :
    ((Mock.region ⟨numberedPorts 1, 1, 0, 1⟩).list 0 "vpc" "ports/port-0" Values.empty).1
        = .ok none ∧
    (Mock.region ⟨numberedPorts 1, 1, 0, 1⟩).UnmarshalPort none "port"
        = .error (.raised "decode failed") ∧
    ((Mock.region ⟨numberedPorts 1, 1, 0, 1⟩).GetPort 0 "port-0").returned
        = some (none, some (.raised "decode failed")) ∧
    ((Mock.region ⟨numberedPorts 1, 1, 0, 1⟩).GetPort 0 "port-0").returned
        ≠ some (none, some (.wrapf (.raised "decode failed") "get port")) :=
  ⟨rfl, rfl, rfl, by decide⟩

/-- C11, amended: when the list call fails, `GetPort` returns no port and that error
wrapped with the message "get port"; when the decoding of the response fails, it
returns no port and the decode error itself, not wrapped. Either way it has issued the
one list call on "ports/" followed by the id. -/
theorem GetPort_errors {σ ρ : Type} (self : SRegion σ ρ) (st : σ) (id : String) :
    (∀ err : Error,
      (self.list st self.SERVICE_VPC ("ports/" ++ id) Values.empty).1 = .error err →
      (self.GetPort st id).returned = some (none, some (.wrapf err "get port"))) ∧
    (∀ (resp : ρ) (err : Error),
      (self.list st self.SERVICE_VPC ("ports/" ++ id) Values.empty).1 = .ok resp →
      self.UnmarshalPort resp "port" = .error err →
      (self.GetPort st id).returned = some (none, some err)) ∧
    (self.GetPort st id).calls.length = 1 := by
  unfold SRegion.GetPort
  rcases hl : self.list st self.SERVICE_VPC ("ports/" ++ id) Values.empty with ⟨r, st'⟩
  cases r with
  | error e =>
    refine ⟨?_, ?_, rfl⟩
    · intro err h
      cases h
      rfl
    · intro resp err h
      cases h
  | ok resp0 =>
    refine ⟨?_, ?_, ?_⟩
    · intro err h
      cases h
    · intro resp err h hdec
      cases h
      simp only [hdec]
    · simp only []
      split <;> rfl

/-- Witness of the amended C11 on the mock provider: a failing list call gives the
wrapped error, an undecodable response gives the bare decode error. -/
theorem GetPort_errors_witness :
    ((Mock.region ⟨numberedPorts 1, 1, 1, 0⟩).GetPort 0 "port-0").returned
        = some (none, some (.wrapf (.raised "list failed") "get port")) ∧
    ((Mock.region ⟨numberedPorts 1, 1, 0, 1⟩).GetPort 0 "port-0").returned
        = some (none, some (.raised "decode failed")) :=
  ⟨(GetPort_errors (Mock.region ⟨numberedPorts 1, 1, 1, 0⟩) 0 "port-0").1
      (.raised "list failed") rfl,
   (GetPort_errors (Mock.region ⟨numberedPorts 1, 1, 0, 1⟩) 0 "port-0").2.1
      none (.raised "decode failed") rfl rfl⟩

/-- C12 against the code: with every option left empty, the `port` object that
`UpdatePort` passes to `put` still holds the four keys, each with its empty value. -/
theorem UpdatePort_empty_fields_sent :
    ((Mock.region ⟨numberedPorts 1, 1, 0, 0⟩).UpdatePort 0 "port-0" emptyOpts).calls
      = [Request.put "vpc" "ports/port-0"
          [("port",
            [("name", PortField.name ""),
             ("security_groups", PortField.security_groups none),
             ("allowed_address_pairs", PortField.allowed_address_pairs none),
             ("extra_dhcp_opts", PortField.extra_dhcp_opts none)])]] ∧
    portKeys
        [("port",
          [("name", PortField.name ""),
           ("security_groups", PortField.security_groups none),
           ("allowed_address_pairs", PortField.allowed_address_pairs none),
           ("extra_dhcp_opts", PortField.extra_dhcp_opts none)])]
      = some ["name", "security_groups", "allowed_address_pairs", "extra_dhcp_opts"] :=
  ⟨rfl, by decide⟩

/-- C13: `UpdatePort` issues exactly one `put`, on the path "ports/" followed by the id;
it returns the `nil` error exactly when that `put` succeeds, and when the `put` fails
with `err` it returns `err` wrapped with the message "update port " followed by the
id. -/
theorem UpdatePort_spec {σ ρ : Type} (self : SRegion σ ρ) (st : σ) (id : String)
    (opts : UpdatePortOpts) :
    ∃ body : Params,
      (self.UpdatePort st id opts).calls
        = [Request.put self.SERVICE_VPC ("ports/" ++ id) body] ∧
      ((self.UpdatePort st id opts).returned = some none ↔
        ∃ resp, (self.put st self.SERVICE_VPC ("ports/" ++ id) body).1 = .ok resp) ∧
      (∀ err : Error,
        (self.put st self.SERVICE_VPC ("ports/" ++ id) body).1 = .error err →
        (self.UpdatePort st id opts).returned
          = some (some (.wrapf err ("update port " ++ id)))) ∧
      (self.UpdatePort st id opts).state
        = (self.put st self.SERVICE_VPC ("ports/" ++ id) body).2 := by
  refine ⟨_, UpdatePort_calls self st id opts, ?_⟩
  unfold SRegion.UpdatePort
  simp only []
  rcases hp : self.put st self.SERVICE_VPC ("ports/" ++ id)
      [("port",
        [("name", PortField.name opts.Name),
         ("security_groups", PortField.security_groups opts.SecurityGroups),
         ("allowed_address_pairs", PortField.allowed_address_pairs opts.AllowedAddressPairs),
         ("extra_dhcp_opts", PortField.extra_dhcp_opts opts.ExtraDhcpOpts)])] with ⟨r, st'⟩
  cases r with
  | error e =>
    refine ⟨⟨?_, ?_⟩, ?_, rfl⟩
    · intro h
      cases h
    · rintro ⟨resp, h⟩
      cases h
    · intro err h
      cases h
      rfl
  | ok resp0 =>
    refine ⟨⟨fun _ => ⟨resp0, rfl⟩, fun _ => rfl⟩, ?_, rfl⟩
    intro err h
    cases h

/-- Witness of C13: on a provider whose `put` fails with "boom", `UpdatePort` of
"port-0" returns that error wrapped with "update port port-0"; on one whose `put`
succeeds it returns the `nil` error. -/
theorem UpdatePort_spec_witness :
    ((putFailsRegion (.raised "boom")).UpdatePort 0 "port-0" emptyOpts).returned
        = some (some (.wrapf (.raised "boom") "update port port-0")) ∧
    ((Mock.region ⟨numberedPorts 1, 1, 0, 0⟩).UpdatePort 0 "port-0" emptyOpts).returned
        = some none := by
  obtain ⟨body, hcalls, _, hfail, _⟩ :=
    UpdatePort_spec (putFailsRegion (.raised "boom")) 0 "port-0" emptyOpts
  obtain ⟨body', hcalls', hok, _, _⟩ :=
    UpdatePort_spec (Mock.region ⟨numberedPorts 1, 1, 0, 0⟩) 0 "port-0" emptyOpts
  exact ⟨hfail (.raised "boom") rfl, hok.2 ⟨none, rfl⟩⟩

/-! ## Errors, termination and the query of `GetPorts` -/

/-- An error of a page exchange is the error of the list call or of the decoding. -/
theorem fetchPorts_error {σ ρ : Type} (self : SRegion σ ρ) (st : σ) (query : Values)
    (err : Error) (h : (self.fetchPorts st query).1 = .error err) :
    (self.list st self.SERVICE_VPC "ports" query).1 = .error err ∨
    ∃ resp : ρ, (self.list st self.SERVICE_VPC "ports" query).1 = .ok resp ∧
      self.UnmarshalPorts resp "ports" = .error err := by
  unfold SRegion.fetchPorts at h
  rcases hl : self.list st self.SERVICE_VPC "ports" query with ⟨r, st'⟩
  rw [hl] at h
  cases r with
  | error e =>
    left
    simpa using h
  | ok resp =>
    right
    exact ⟨resp, rfl, by simpa using h⟩

/-- What a loop run that returns an error returns: the `nil` list and the error of the
last call it issued, which is the error of some list call or of some decoding. -/
theorem GetPorts_loop_returns_error {σ ρ : Type} (self : SRegion σ ρ) :
    ∀ (fuel : Nat) (st : σ) (query : Values) (ret : List Port) (calls : List Call)
      (r : Option (List Port)) (e : Error),
      (GetPorts.loop self fuel st query ret calls).returned = some (r, some e) →
      r = none ∧
      (GetPorts.loop self fuel st query ret calls).calls.getLast?.map Call.page
        = some (.error e) ∧
      ((∃ (st' : σ) (query' : Values),
          (self.list st' self.SERVICE_VPC "ports" query').1 = .error e) ∨
        ∃ resp : ρ, self.UnmarshalPorts resp "ports" = .error e) := by
  intro fuel
  induction fuel with
  | zero =>
    intro st query ret calls r e h
    simp [GetPorts.loop] at h
  | succ fuel ih =>
    intro st query ret calls r e h
    rcases hf : (self.fetchPorts st query).1 with err | part
    · rw [GetPorts_loop_error self fuel st query ret calls err hf] at h ⊢
      simp only [Option.some.injEq, Prod.mk.injEq] at h
      obtain ⟨hr, he⟩ := h
      subst hr
      subst he
      refine ⟨rfl, by simp, ?_⟩
      rcases fetchPorts_error self st query err hf with hl | ⟨resp, _, hd⟩
      · exact Or.inl ⟨st, query, hl⟩
      · exact Or.inr ⟨resp, hd⟩
    · rcases hl : part.getLast? with _ | last
      · have hnil : part = [] := List.getLast?_eq_none_iff.mp hl
        subst hnil
        rw [GetPorts_loop_empty self fuel st query ret calls hf] at h
        simp at h
      · rw [GetPorts_loop_page self fuel st query ret calls part last hf hl] at h ⊢
        exact ih _ _ _ _ r e h

/-- The shape of a loop run's trace: at most one call per iteration; a run that has not
returned has issued one call per iteration, each with a non-empty page; a run that
returned without any failed call returned a port list and no error. -/
theorem GetPorts_loop_trace {σ ρ : Type} (self : SRegion σ ρ) :
    ∀ (fuel : Nat) (st : σ) (query : Values) (ret : List Port) (calls : List Call),
      ∃ new : List Call,
        (GetPorts.loop self fuel st query ret calls).calls = calls ++ new ∧
        new.length ≤ fuel ∧
        ((GetPorts.loop self fuel st query ret calls).returned = none →
          new.length = fuel ∧ ∀ c ∈ new, 0 < c.size) ∧
        (∀ r, (GetPorts.loop self fuel st query ret calls).returned = some r →
          (∀ c ∈ new, c.failed = false) → ∃ ports, r = (some ports, none)) := by
  intro fuel
  induction fuel with
  | zero =>
    intro st query ret calls
    refine ⟨[], by simp [GetPorts.loop], by simp, fun _ => ⟨rfl, by simp⟩, ?_⟩
    intro r h
    simp [GetPorts.loop] at h
  | succ fuel ih =>
    intro st query ret calls
    rcases hf : (self.fetchPorts st query).1 with err | part
    · rw [GetPorts_loop_error self fuel st query ret calls err hf]
      refine ⟨[⟨self.SERVICE_VPC, "ports", query, .error err⟩], rfl, by simp, ?_, ?_⟩
      · intro h
        simp at h
      · intro r _ hok
        have := hok ⟨self.SERVICE_VPC, "ports", query, .error err⟩ (by simp)
        simp [Call.failed] at this
    · rcases hl : part.getLast? with _ | last
      · have hnil : part = [] := List.getLast?_eq_none_iff.mp hl
        subst hnil
        rw [GetPorts_loop_empty self fuel st query ret calls hf]
        refine ⟨[⟨self.SERVICE_VPC, "ports", query, .ok []⟩], rfl, by simp, ?_, ?_⟩
        · intro h
          simp at h
        · intro r h _
          exact ⟨ret, by simpa using h.symm⟩
      · rw [GetPorts_loop_page self fuel st query ret calls part last hf hl]
        obtain ⟨new, hnew, hlen, hnone, hsome⟩ := ih (self.fetchPorts st query).2
          (query.Set "marker" last.ID) (ret ++ part)
          (calls ++ [⟨self.SERVICE_VPC, "ports", query, .ok part⟩])
        have hpos : 0 < part.length := by
          cases part with
          | nil => simp at hl
          | cons a t => simp
        refine ⟨⟨self.SERVICE_VPC, "ports", query, .ok part⟩ :: new, ?_, ?_, ?_, ?_⟩
        · rw [hnew]
          simp
        · simp only [List.length_cons]
          omega
        · intro h
          obtain ⟨h1, h2⟩ := hnone h
          refine ⟨by simp [h1], ?_⟩
          intro c hc
          rcases List.mem_cons.mp hc with hc | hc
          · subst hc
            simpa [Call.size] using hpos
          · exact h2 c hc
        · intro r h hok
          exact hsome r h (fun c hc => hok c (List.mem_cons_of_mem _ hc))

/-- A strictly decreasing list of naturals is no longer than its head plus one, and no
longer than its head when all its members are positive. -/
theorem decreasing_length :
    ∀ (l : List Nat), strictlyDecreasing l = true →
      l.length ≤ l.head?.getD 0 + 1 ∧
      ((∀ n ∈ l, 0 < n) → l.length ≤ l.head?.getD 0) := by
  intro l
  induction l with
  | nil => intro _; simp
  | cons a t ih =>
    intro h
    cases t with
    | nil =>
      refine ⟨by simp, ?_⟩
      intro hpos
      have := hpos a (by simp)
      simp
      omega
    | cons b u =>
      simp only [strictlyDecreasing, Bool.and_eq_true, decide_eq_true_eq] at h
      obtain ⟨hba, hrest⟩ := h
      obtain ⟨h1, h2⟩ := ih hrest
      simp only [List.head?_cons, Option.getD_some, List.length_cons] at h1 h2 ⊢
      refine ⟨by omega, ?_⟩
      intro hpos
      have := h2 (fun n hn => hpos n (List.mem_cons_of_mem _ hn))
      omega

/-- In a chained list of calls, every query agrees with the first one on every key
other than `marker`. -/
theorem chained_lookup :
    ∀ (calls : List Call) (query : Values), Chained query calls →
      ∀ c ∈ calls, ∀ k : String, k ≠ "marker" → c.query.lookup k = query.lookup k := by
  intro calls
  induction calls with
  | nil => intro query _ c hc; simp at hc
  | cons c0 rest ih =>
    intro query hch c hc k hk
    obtain ⟨hq, hrest⟩ := hch
    rcases List.mem_cons.mp hc with hc | hc
    · rw [hc, hq]
    · rcases hrest with hnil | ⟨page, last, _, _, hchain⟩
      · subst hnil
        simp at hc
      · rw [ih _ hchain c hc k hk]
        simp [Values.Set, hk]

/-- A provider that answers every call with the same non-empty page keeps the loop
going: `n` iterations later the loop is where it was, with `n` more copies of the page
in the accumulator and `n` more calls issued. -/
theorem GetPorts_loop_constant {σ ρ : Type} (self : SRegion σ ρ) (page : List Port)
    (hpage : ∀ (st : σ) (query : Values), (self.fetchPorts st query).1 = .ok page)
    (hne : page ≠ []) :
    ∀ (n fuel : Nat) (st : σ) (query : Values) (ret : List Port) (calls : List Call),
      ∃ (st' : σ) (query' : Values) (calls' : List Call),
        GetPorts.loop self (n + fuel) st query ret calls
          = GetPorts.loop self fuel st' query' (ret ++ (List.replicate n page).flatten)
              calls' ∧
        calls'.length = calls.length + n ∧
        calls'.map Call.page = calls.map Call.page ++ List.replicate n (.ok page) := by
  intro n
  induction n with
  | zero =>
    intro fuel st query ret calls
    exact ⟨st, query, calls, by simp, by simp, by simp⟩
  | succ n ih =>
    intro fuel st query ret calls
    obtain ⟨last, hlast⟩ : ∃ last, page.getLast? = some last :=
      ⟨page.getLast hne, List.getLast?_eq_getLast page hne⟩
    have hstep := GetPorts_loop_page self (n + fuel) st query ret calls page last
      (hpage st query) hlast
    obtain ⟨st', query', calls', heq, hlen, hpages⟩ := ih fuel (self.fetchPorts st query).2
      (query.Set "marker" last.ID) (ret ++ page)
      (calls ++ [⟨self.SERVICE_VPC, "ports", query, .ok page⟩])
    refine ⟨st', query', calls', ?_, ?_, ?_⟩
    · have harith : n + 1 + fuel = n + fuel + 1 := by omega
      rw [harith, hstep, heq]
      simp [List.replicate_succ, List.append_assoc]
    · rw [hlen]
      simp
      omega
    · rw [hpages]
      simp [List.replicate_succ, List.append_assoc]

/-- C14, as stated, fails on the code: when the first list call of the mock provider
fails, and when the response of its first list call does not decode, `GetPorts` returns
the collaborator's error itself, which is no wrapped error. -/
theorem GetPorts_unwrapped_counterexample :
    (((Mock.region ⟨numberedPorts 5, 2, 1, 0⟩).list 0 "vpc" "ports"
        (GetPorts.initialQuery "")).1 = .error (.raised "list failed") ∧
      ((Mock.region ⟨numberedPorts 5, 2, 1, 0⟩).GetPorts 9 0 "").returned
        = some (none, some (.raised "list failed"))) ∧
    ((Mock.region ⟨numberedPorts 5, 2, 0, 1⟩).UnmarshalPorts none "ports"
        = .error (.raised "decode failed") ∧
      ((Mock.region ⟨numberedPorts 5, 2, 0, 1⟩).GetPorts 9 0 "").returned
        = some (none, some (.raised "decode failed"))) ∧
    (∀ (cause : Error) (msg : String),
      ((Mock.region ⟨numberedPorts 5, 2, 1, 0⟩).GetPorts 9 0 "").returned
          ≠ some (none, some (.wrapf cause msg)) ∧
      ((Mock.region ⟨numberedPorts 5, 2, 0, 1⟩).GetPorts 9 0 "").returned
          ≠ some (none, some (.wrapf cause msg))) := by
  have h1 : ((Mock.region ⟨numberedPorts 5, 2, 1, 0⟩).GetPorts 9 0 "").returned
      = some (none, some (.raised "list failed")) := by decide
  have h2 : ((Mock.region ⟨numberedPorts 5, 2, 0, 1⟩).GetPorts 9 0 "").returned
      = some (none, some (.raised "decode failed")) := by decide
  refine ⟨⟨rfl, h1⟩, ⟨rfl, h2⟩, ?_⟩
  intro cause msg
  rw [h1, h2]
  constructor <;> intro h <;> cases h

/-- C14, amended: every error that `GetPorts` returns is the error of a failed list call
or of a failed decoding, returned as it is with no message added; it comes with the
`nil` port list, and the failing call is the last call of the run. -/
theorem GetPorts_error_bare {σ ρ : Type} (self : SRegion σ ρ) (fuel : Nat) (st : σ)
    (instanceId : String) (r : Option (List Port)) (e : Error)
    (h : (self.GetPorts fuel st instanceId).returned = some (r, some e)) :
    r = none ∧
    (self.GetPorts fuel st instanceId).calls.getLast?.map Call.page = some (.error e) ∧
    ((∃ (st' : σ) (query' : Values),
        (self.list st' self.SERVICE_VPC "ports" query').1 = .error e) ∨
      ∃ resp : ρ, self.UnmarshalPorts resp "ports" = .error e) := by
  rw [GetPorts_eq_loop] at h ⊢
  exact GetPorts_loop_returns_error self fuel st _ [] [] r e h

/-- Witness of the amended C14 on the mock provider whose third list call fails. -/
theorem GetPorts_error_bare_witness :
    ((Mock.region ⟨numberedPorts 5, 2, 3, 0⟩).GetPorts 9 0 "").returned
        = some (none, some (.raised "list failed")) ∧
    ((Mock.region ⟨numberedPorts 5, 2, 3, 0⟩).GetPorts 9 0 "").calls.getLast?.map Call.page
        = some (.error (.raised "list failed")) :=
  have h : ((Mock.region ⟨numberedPorts 5, 2, 3, 0⟩).GetPorts 9 0 "").returned
      = some (none, some (.raised "list failed")) := by decide
  ⟨h, (GetPorts_error_bare (Mock.region ⟨numberedPorts 5, 2, 3, 0⟩) 9 0 "" none
        (.raised "list failed") h).2.1⟩

/-- C15: when no call of a run fails and every page is strictly smaller than the page
before it, `GetPorts` returns a port list within the size of the first page plus one
list calls, as soon as it is allowed that many iterations. -/
theorem GetPorts_terminates {σ ρ : Type} (self : SRegion σ ρ) (fuel : Nat) (st : σ)
    (instanceId : String)
    (hok : ∀ c ∈ (self.GetPorts fuel st instanceId).calls, c.failed = false)
    (hdec : strictlyDecreasing ((self.GetPorts fuel st instanceId).calls.map Call.size)
      = true)
    (hfuel : (((self.GetPorts fuel st instanceId).calls.map Call.size).head?.getD 0) + 1
      ≤ fuel) :
    (∃ ports : List Port,
      (self.GetPorts fuel st instanceId).returned = some (some ports, none)) ∧
    (self.GetPorts fuel st instanceId).calls.length
      ≤ (((self.GetPorts fuel st instanceId).calls.map Call.size).head?.getD 0) + 1 := by
  obtain ⟨new, hnew, _, hnone, hsome⟩ := GetPorts_loop_trace self fuel st
    (GetPorts.initialQuery instanceId) [] []
  rw [← GetPorts_eq_loop] at hnew hnone hsome
  rw [List.nil_append] at hnew
  rw [← hnew] at hnone hsome
  obtain ⟨hlen1, hlen2⟩ := decreasing_length _ hdec
  rw [List.length_map] at hlen1 hlen2
  refine ⟨?_, hlen1⟩
  rcases hret : (self.GetPorts fuel st instanceId).returned with _ | r
  · exfalso
    obtain ⟨hcount, hpos⟩ := hnone hret
    have := hlen2 (by
      intro n hn
      obtain ⟨c, hc, rfl⟩ := List.mem_map.mp hn
      exact hpos c hc)
    omega
  · obtain ⟨ports, hports⟩ := hsome r hret hok
    exact ⟨ports, by rw [hports]⟩

/-- Witness of C15 on the mock provider holding three ports in pages of two: the pages
have sizes 2, 1, 0, and `GetPorts` returns within three list calls. -/
theorem GetPorts_terminates_witness :
    (∃ ports : List Port,
      ((Mock.region ⟨numberedPorts 3, 2, 0, 0⟩).GetPorts 3 0 "").returned
        = some (some ports, none)) ∧
    ((Mock.region ⟨numberedPorts 3, 2, 0, 0⟩).GetPorts 3 0 "").calls.length ≤ 2 + 1 :=
  GetPorts_terminates (Mock.region ⟨numberedPorts 3, 2, 0, 0⟩) 3 0 ""
    (by decide) (by decide) (by decide)

/-- C16: `GetICloudInterfaceAddresses` leaves every scalar field of the port as it was,
and keeps the fixed IPs in number and order with every `IpAddress` and `SubnetID`
unchanged. -/
theorem GetICloudInterfaceAddresses_frame (port : Port) :
    ∃ (port' : Port) (result : Option (List FixedIPRef) × Option Error),
      port.GetICloudInterfaceAddresses = some (port', result) ∧
      port'.ID = port.ID ∧ port'.Name = port.Name ∧ port'.Status = port.Status ∧
      port'.AdminStateUp = port.AdminStateUp ∧ port'.DNSName = port.DNSName ∧
      port'.MACAddress = port.MACAddress ∧ port'.NetworkID = port.NetworkID ∧
      port'.TenantID = port.TenantID ∧ port'.DeviceID = port.DeviceID ∧
      port'.DeviceOwner = port.DeviceOwner ∧
      port'.BindingVnicType = port.BindingVnicType ∧
      port'.FixedIps.length = port.FixedIps.length ∧
      port'.FixedIps.map SFixedIP.IpAddress = port.FixedIps.map SFixedIP.IpAddress ∧
      port'.FixedIps.map SFixedIP.SubnetID = port.FixedIps.map SFixedIP.SubnetID := by
  refine ⟨_, _, GetICloudInterfaceAddresses_eq port, rfl, rfl, rfl, rfl, rfl, rfl, rfl, rfl,
    rfl, rfl, rfl, by simp, ?_, ?_⟩
  · simp [List.map_map, Function.comp_def, SFixedIP.withNetworkId]
  · simp [List.map_map, Function.comp_def, SFixedIP.withNetworkId]

theorem initialQuery_device_id (instanceId : String) :
    (GetPorts.initialQuery instanceId).lookup "device_id"
      = if instanceId = "" then none else some [instanceId] := by
  unfold GetPorts.initialQuery
  by_cases h : instanceId = ""
  · have hz : ¬ len instanceId > 0 := fun hpos => (len_pos_iff _).1 hpos h
    rw [if_neg hz, if_pos h]
    rfl
  · have hpos : len instanceId > 0 := (len_pos_iff _).2 h
    rw [if_pos hpos, if_neg h]
    simp [Values.Set]

/-- C17: every list call of a `GetPorts` run, the first and all later ones, carries
`device_id` equal to the instance id when that is non-empty and no `device_id` when it
is empty, and two consecutive calls agree on every query key other than `marker`. -/
theorem GetPorts_device_id {σ ρ : Type} (self : SRegion σ ρ) (fuel : Nat) (st : σ)
    (instanceId : String) :
    (instanceId ≠ "" →
      ∀ (i : Nat) (h : i < (self.GetPorts fuel st instanceId).calls.length),
        (self.GetPorts fuel st instanceId).calls[i].query.lookup "device_id"
          = some [instanceId]) ∧
    (instanceId = "" →
      ∀ (i : Nat) (h : i < (self.GetPorts fuel st instanceId).calls.length),
        (self.GetPorts fuel st instanceId).calls[i].query.lookup "device_id" = none) ∧
    (∀ (i : Nat) (h : i + 1 < (self.GetPorts fuel st instanceId).calls.length)
      (k : String), k ≠ "marker" →
        (self.GetPorts fuel st instanceId).calls[i + 1].query.lookup k
          = (self.GetPorts fuel st instanceId).calls[i].query.lookup k) := by
  obtain ⟨new, hnew, hch⟩ := GetPorts_loop_chained self fuel st
    (GetPorts.initialQuery instanceId) [] []
  rw [← GetPorts_eq_loop, List.nil_append] at hnew
  rw [← hnew] at hch
  have hkey : ∀ (i : Nat) (h : i < (self.GetPorts fuel st instanceId).calls.length),
      (self.GetPorts fuel st instanceId).calls[i].query.lookup "device_id"
        = if instanceId = "" then none else some [instanceId] := by
    intro i h
    rw [chained_lookup _ _ hch _ (List.getElem_mem h) "device_id" (by decide)]
    exact initialQuery_device_id instanceId
  refine ⟨?_, ?_, ?_⟩
  · intro hne i h
    rw [hkey i h, if_neg hne]
  · intro he i h
    rw [hkey i h, if_pos he]
  · intro i h k hk
    obtain ⟨page, last, _, _, hq⟩ := chained_next _ _ hch i h
    rw [hq]
    simp [Values.Set, hk]

/-- Witness of C17 on the mock provider holding five ports in pages of two: with the
instance id "device-1" the fourth call still carries it, with the empty instance id
the fourth call carries none, and the second call agrees with the first on
`device_id`. -/
theorem GetPorts_device_id_witness :
    (∃ _h : 3 < ((Mock.region ⟨numberedPorts 5, 2, 0, 0⟩).GetPorts 9 0 "device-1").calls.length,
      ((Mock.region ⟨numberedPorts 5, 2, 0, 0⟩).GetPorts 9 0 "device-1").calls[3].query.lookup
        "device_id" = some ["device-1"]) ∧
    (∃ _h : 3 < ((Mock.region ⟨numberedPorts 5, 2, 0, 0⟩).GetPorts 9 0 "").calls.length,
      ((Mock.region ⟨numberedPorts 5, 2, 0, 0⟩).GetPorts 9 0 "").calls[3].query.lookup
        "device_id" = none) ∧
    (∃ _h : 0 + 1
        < ((Mock.region ⟨numberedPorts 5, 2, 0, 0⟩).GetPorts 9 0 "device-1").calls.length,
      ((Mock.region ⟨numberedPorts 5, 2, 0, 0⟩).GetPorts 9 0 "device-1").calls[0 + 1].query.lookup
          "device_id"
        = ((Mock.region ⟨numberedPorts 5, 2, 0, 0⟩).GetPorts 9 0 "device-1").calls[0].query.lookup
          "device_id") :=
  ⟨⟨by decide,
    (GetPorts_device_id (Mock.region ⟨numberedPorts 5, 2, 0, 0⟩) 9 0 "device-1").1
      (by decide) 3 (by decide)⟩,
   ⟨by decide,
    (GetPorts_device_id (Mock.region ⟨numberedPorts 5, 2, 0, 0⟩) 9 0 "").2.1
      rfl 3 (by decide)⟩,
   ⟨by decide,
    (GetPorts_device_id (Mock.region ⟨numberedPorts 5, 2, 0, 0⟩) 9 0 "device-1").2.2
      0 (by decide) "device_id" (by decide)⟩⟩

/-- C18: against a provider that answers every list call with the same non-empty page,
`GetPorts` has not returned after any number of iterations: it has then issued that
many list calls, each answered with the page, and after `n` iterations its loop goes
on with `n` copies of the page in the accumulator. -/
theorem GetPorts_never_returns {σ ρ : Type} (self : SRegion σ ρ) (page : List Port)
    (hpage : ∀ (st : σ) (query : Values), (self.fetchPorts st query).1 = .ok page)
    (hne : page ≠ []) (st : σ) (instanceId : String) :
    (∀ fuel : Nat,
      (self.GetPorts fuel st instanceId).returned = none ∧
      (self.GetPorts fuel st instanceId).calls.length = fuel ∧
      (self.GetPorts fuel st instanceId).calls.map Call.page
        = List.replicate fuel (.ok page)) ∧
    (∀ n fuel : Nat, ∃ (st' : σ) (query' : Values) (calls' : List Call),
      self.GetPorts (n + fuel) st instanceId
        = GetPorts.loop self fuel st' query' (List.replicate n page).flatten calls' ∧
      calls'.length = n) := by
  constructor
  · intro fuel
    obtain ⟨st', query', calls', heq, hlen, hpages⟩ :=
      GetPorts_loop_constant self page hpage hne fuel 0 st
        (GetPorts.initialQuery instanceId) [] []
    rw [Nat.add_zero, ← GetPorts_eq_loop] at heq
    rw [heq]
    exact ⟨rfl, by simpa [GetPorts.loop] using hlen, by simpa [GetPorts.loop] using hpages⟩
  · intro n fuel
    obtain ⟨st', query', calls', heq, hlen, _⟩ :=
      GetPorts_loop_constant self page hpage hne n fuel st
        (GetPorts.initialQuery instanceId) [] []
    rw [← GetPorts_eq_loop] at heq
    exact ⟨st', query', calls', by simpa using heq, by simpa using hlen⟩

/-- Witness of C18 on the provider that always answers the one port "port-0": after
seven iterations `GetPorts` has issued seven list calls and has not returned. -/
theorem GetPorts_never_returns_witness :
    ((constantRegion (numberedPorts 1)).GetPorts 7 0 "").returned = none ∧
    ((constantRegion (numberedPorts 1)).GetPorts 7 0 "").calls.length = 7 :=
  have h := (GetPorts_never_returns (constantRegion (numberedPorts 1)) (numberedPorts 1)
    (fun _ _ => rfl) (by decide) 0 "").1 7
  ⟨h.1, h.2.1⟩

theorem GetStatus_fixed (api : ApiConstants) (port : Port) (s : String)
    (h : notStatusLabel s) : { port with Status := s }.GetStatus api = s := by
  obtain ⟨h1, h2, h3⟩ := h
  simp [Port.GetStatus, h1, h2, h3]

theorem GetAssociateType_fixed (api : ApiConstants) (port : Port) (s : String)
    (h : notOwnerLabel s) : { port with DeviceOwner := s }.GetAssociateType api = s := by
  obtain ⟨h0, h1, h2, h3, h4, h5, h6, hp⟩ := h
  simp [Port.GetAssociateType, h0, h1, h2, h3, h4, h5, h6, hp]

/-- The outcome of `GetStatus` is a canonical status, or the raw status when that is no
case label. -/
theorem GetStatus_cases (api : ApiConstants) (port : Port) :
    port.GetStatus api = api.NETWORK_INTERFACE_STATUS_AVAILABLE ∨
    port.GetStatus api = api.NETWORK_INTERFACE_STATUS_CREATING ∨
    (port.GetStatus api = port.Status ∧ notStatusLabel port.Status) := by
  unfold Port.GetStatus
  by_cases h1 : port.Status = "ACTIVE" ∨ port.Status = "DOWN"
  · rw [if_pos h1]
    exact Or.inl rfl
  · rw [if_neg h1]
    by_cases h2 : port.Status = "BUILD"
    · rw [if_pos h2]
      exact Or.inr (Or.inl rfl)
    · rw [if_neg h2]
      exact Or.inr (Or.inr ⟨rfl, fun h => h1 (Or.inl h), fun h => h1 (Or.inr h), h2⟩)

/-- The outcome of `GetAssociateType` is a canonical association type, or the raw
device owner when that is no case label and does not start with "compute:". -/
theorem GetAssociateType_cases (api : ApiConstants) (port : Port) :
    port.GetAssociateType api = api.NETWORK_INTERFACE_ASSOCIATE_TYPE_SERVER ∨
    port.GetAssociateType api = api.NETWORK_INTERFACE_ASSOCIATE_TYPE_RESERVED ∨
    port.GetAssociateType api = api.NETWORK_INTERFACE_ASSOCIATE_TYPE_DHCP ∨
    port.GetAssociateType api = api.NETWORK_INTERFACE_ASSOCIATE_TYPE_LOADBALANCER ∨
    port.GetAssociateType api = api.NETWORK_INTERFACE_ASSOCIATE_TYPE_VIP ∨
    (port.GetAssociateType api = port.DeviceOwner ∧ notOwnerLabel port.DeviceOwner) := by
  unfold Port.GetAssociateType
  by_cases h0 : port.DeviceOwner = "compute:nova"
  · rw [if_pos h0]; exact Or.inl rfl
  rw [if_neg h0]
  by_cases h1 : port.DeviceOwner = "network:router_gateway"
      ∨ port.DeviceOwner = "network:router_interface"
      ∨ port.DeviceOwner = "network:router_interface_distributed"
  · rw [if_pos h1]; exact Or.inr (Or.inl rfl)
  rw [if_neg h1]
  by_cases h4 : port.DeviceOwner = "network:dhcp"
  · rw [if_pos h4]; exact Or.inr (Or.inr (Or.inl rfl))
  rw [if_neg h4]
  by_cases h5 : port.DeviceOwner = "neutron:LOADBALANCERV2"
  · rw [if_pos h5]; exact Or.inr (Or.inr (Or.inr (Or.inl rfl)))
  rw [if_neg h5]
  by_cases h6 : port.DeviceOwner = "neutron:VIP_PORT"
  · rw [if_pos h6]; exact Or.inr (Or.inr (Or.inr (Or.inr (Or.inl rfl))))
  rw [if_neg h6]
  by_cases hp : HasPrefix port.DeviceOwner "compute:" = true
  · rw [if_pos hp]; exact Or.inl rfl
  rw [if_neg hp]
  refine Or.inr (Or.inr (Or.inr (Or.inr (Or.inr ⟨rfl, h0, ?_, ?_, ?_, h4, h5, h6, ?_⟩))))
  · exact fun h => h1 (Or.inl h)
  · exact fun h => h1 (Or.inr (Or.inl h))
  · exact fun h => h1 (Or.inr (Or.inr h))
  · simpa using hp

/-- C19: when the canonical constants are no case label and do not start with
"compute:", both normalisers are idempotent: putting `GetStatus()` in place of `Status`
leaves `GetStatus()` as it was, and putting `GetAssociateType()` in place of
`DeviceOwner` leaves `GetAssociateType()` as it was. -/
theorem normalizers_idempotent (api : ApiConstants) (hcanonical : api.Canonical)
    (port : Port) :
    { port with Status := port.GetStatus api }.GetStatus api = port.GetStatus api ∧
    { port with DeviceOwner := port.GetAssociateType api }.GetAssociateType api
      = port.GetAssociateType api := by
  obtain ⟨ha, hc, hs, hr, hd, hl, hv⟩ := hcanonical
  constructor
  · apply GetStatus_fixed
    rcases GetStatus_cases api port with h | h | ⟨h, hraw⟩
    · rw [h]; exact ha
    · rw [h]; exact hc
    · rw [h]; exact hraw
  · apply GetAssociateType_fixed
    rcases GetAssociateType_cases api port with h | h | h | h | h | ⟨h, hraw⟩
    · rw [h]; exact hs
    · rw [h]; exact hr
    · rw [h]; exact hd
    · rw [h]; exact hl
    · rw [h]; exact hv
    · rw [h]; exact hraw

/-- Witness of C19 with the constants available, creating, server, reserved, dhcp,
loadbalancer and vip, on an active port owned by "compute:nova". -/
theorem normalizers_idempotent_witness :
    sampleApi.Canonical ∧
    { samplePort with Status := samplePort.GetStatus sampleApi }.GetStatus sampleApi
      = "available" ∧
    { samplePort with
        DeviceOwner := samplePort.GetAssociateType sampleApi }.GetAssociateType sampleApi
      = "server" :=
  ⟨by decide,
   (normalizers_idempotent sampleApi (by decide) samplePort).1,
   (normalizers_idempotent sampleApi (by decide) samplePort).2⟩

end Huawei
